import Mathlib

/-!
Shallow embedding of the geometry / quoting core of the `am2` repository.

Numbers are modelled as exact rationals (`ℚ`); JavaScript floating point is
treated as exact arithmetic, as the specification's tolerance language allows.

Sources embedded here:
* `src/components/ThreeDViewer.tsx` — `signedVolumeOfTriangle`, `calculateVolume`
  and the `volume_cm3` computation of the `Model` component;
* `src/unnamed/part_000` — `calculateQuoteLocally` (print simulator and
  flow-limited speed model) and the `finalPrice` `useMemo` of `App`
  (pricing engine, lines 747–783);
* `src/types.ts` — the record shapes (`ValidationResult`, `Material`,
  `PricingTier`, `Settings`, `QuoteData`); fields that the embedded
  computations never read (ids, display names, colors, prices on `Material`,
  admin fields on `Settings`, the formatted fields of `QuoteData`) are omitted.
-/

namespace AM2

/-- A 3D point/vector (`THREE.Vector3`), in millimeters. -/
abbrev V3 : Type := ℚ × ℚ × ℚ

/-- Model of `THREE.Vector3.dot`. -/
def dot (a b : V3) : ℚ := a.1 * b.1 + a.2.1 * b.2.1 + a.2.2 * b.2.2

/-- Model of `THREE.Vector3.cross`. -/
def cross (a b : V3) : V3 :=
  (a.2.1 * b.2.2 - a.2.2 * b.2.1,
   a.2.2 * b.1 - a.1 * b.2.2,
   a.1 * b.2.1 - a.2.1 * b.1)

/-- Embeds `signedVolumeOfTriangle` (ThreeDViewer.tsx line 13):
`p1.dot(p2.cross(p3)) / 6.0`. -/
def signedVolumeOfTriangle (p1 p2 p3 : V3) : ℚ := dot p1 (cross p2 p3) / 6

/-- Group a flat list into consecutive triples, as the `for (i; i += 3)` loops
of `calculateVolume` do.  (An incomplete trailing chunk is dropped; the claims
only concern well-formed triangle buffers, whose length is a multiple of 3.) -/
def triplesOf {α : Type} : List α → List (α × α × α)
  | a :: b :: c :: rest => (a, b, c) :: triplesOf rest
  | _ => []

/-- Embeds `calculateVolume` (ThreeDViewer.tsx lines 17–40), written as the source's
accumulating loop (`volume += signedVolumeOfTriangle(...)`, then `Math.abs`).
`positions` is the geometry's position attribute read three coordinates at a
time; `index` is the optional index buffer.  Out-of-range index reads resolve
to the zero vector. -/
def calculateVolume (positions : List V3) (index : Option (List ℕ)) : ℚ :=
  match index with
  | some idx =>
      |(triplesOf idx).foldl
        (fun volume t =>
          volume + signedVolumeOfTriangle (positions.getD t.1 (0, 0, 0))
            (positions.getD t.2.1 (0, 0, 0)) (positions.getD t.2.2 (0, 0, 0))) 0|
  | none =>
      |(triplesOf positions).foldl
        (fun volume t => volume + signedVolumeOfTriangle t.1 t.2.1 t.2.2) 0|

/-- The `volume_cm3` reported by the `Model` component (ThreeDViewer.tsx line
94): `totalVolumeMm3 / 1000` for a single geometry. -/
def volume_cm3_of (positions : List V3) (index : Option (List ℕ)) : ℚ :=
  calculateVolume positions index / 1000

/-- The facet list the geometry describes: for an indexed geometry each index
triple is resolved through the position buffer, otherwise consecutive position
triples are the facets. -/
def facetsOf (positions : List V3) : Option (List ℕ) → List (V3 × V3 × V3)
  | some idx =>
      (triplesOf idx).map
        (fun t => (positions.getD t.1 (0, 0, 0), positions.getD t.2.1 (0, 0, 0),
                   positions.getD t.2.2 (0, 0, 0)))
  | none => triplesOf positions

/-- Signed tetrahedron volume of a facet given as a triple. -/
def signedVolumeOfFacet (t : V3 × V3 × V3) : ℚ :=
  signedVolumeOfTriangle t.1 t.2.1 t.2.2

/-! ### Meshes as triangle lists (for the translation-invariance property) -/

/-- A triangle mesh given as a soup of facets. -/
abbrev Mesh : Type := List (V3 × V3 × V3)

/-- Sum of the signed facet volumes of a mesh (the accumulator of
`calculateVolume` before `Math.abs`). -/
def totalSignedVolume (m : List (V3 × V3 × V3)) : ℚ :=
  (m.map (fun t => signedVolumeOfTriangle t.1 t.2.1 t.2.2)).sum

/-- Abbreviation for a facet's three directed-edge cross products, the
translation-sensitive part of its signed volume. -/
def facetCrossSum (p1 p2 p3 : V3) : V3 := cross p1 p2 + cross p2 p3 + cross p3 p1

/-- Flatten a mesh into the position buffer the viewer would receive
(consecutive position triples, no index). -/
def meshPositions (m : Mesh) : List V3 :=
  (m.map (fun t => [t.1, t.2.1, t.2.2])).flatten

/-- The analyzer's volume of a mesh handed over as a triangle soup. -/
def meshVolume_cm3 (m : Mesh) : ℚ := volume_cm3_of (meshPositions m) none

/-- The three directed boundary edges of a facet. -/
def edgesOfTri (t : V3 × V3 × V3) : List (V3 × V3) :=
  [(t.1, t.2.1), (t.2.1, t.2.2), (t.2.2, t.1)]

/-- All directed edges of a mesh. -/
def meshEdges (m : Mesh) : List (V3 × V3) := (m.map edgesOfTri).flatten

/-- A closed, consistently wound, boundary-free mesh: its multiset of directed
edges is invariant under reversing every edge (each directed edge is matched by
its opposite on a neighbouring facet). -/
def IsClosed (m : Mesh) : Prop := (meshEdges m).Perm ((meshEdges m).map Prod.swap)

/-- Translate every vertex of a mesh by `t`. -/
def translateMesh (t : V3) (m : Mesh) : Mesh :=
  m.map (fun tri => (tri.1 + t, tri.2.1 + t, tri.2.2 + t))

/-- The sum, over all directed edges `(a, b)` of a mesh, of `a × b`.  This is
the quantity whose vanishing makes the signed-volume sum translation
invariant. -/
def edgeCrossSum (m : Mesh) : V3 :=
  ((meshEdges m).map (fun e => cross e.1 e.2)).sum

/-- A closed tetrahedron with consistent winding, used as a concrete closed
mesh. -/
def tetraMesh : Mesh :=
  [((0, 0, 0), (0, 1, 0), (1, 0, 0)),
   ((0, 0, 0), (1, 0, 0), (0, 0, 1)),
   ((0, 0, 0), (0, 0, 1), (0, 1, 0)),
   ((1, 0, 0), (0, 1, 0), (0, 0, 1))]

/-! ### Data model of the simulator and pricing engine (`src/types.ts`) -/

/-- Embeds `dimensions_mm` object. -/
structure Dims where
  x : ℚ
  y : ℚ
  z : ℚ
deriving DecidableEq

/-- Embeds `ValidationResult` (types.ts), restricted to the geometric fields the
simulator reads.  `volume_cm3` and `dimensions_mm` are optional fields. -/
structure ValidationResult where
  volume_cm3 : Option ℚ
  dimensions_mm : Option Dims

/-- Embeds `Material` (types.ts), restricted to the fields `calculateQuoteLocally`
reads.  `max_flow_rate_mm3_s` is optional. -/
structure Material where
  density_g_cm3 : ℚ
  speed_modifier_percent : ℚ
  max_flow_rate_mm3_s : Option ℚ

/-- Embeds `PricingTier` (types.ts).  The source comment says "Use Infinity for the
last tier" for `to_hours`; `none` models `Infinity`. -/
structure PricingTier where
  from_hours : ℚ
  to_hours : Option ℚ
  discount_percent : ℚ
deriving DecidableEq

/-- Embeds `Settings` (types.ts), restricted to the fields the embedded computations
read. -/
structure Settings where
  pricingTiers : List PricingTier
  speed_wall_mm_s : ℚ
  speed_infill_mm_s : ℚ
  speed_top_bottom_mm_s : ℚ
  speed_travel_mm_s : ℚ
  acceleration_overhead_factor : ℚ

/-- The record returned by `calculateQuoteLocally`. -/
structure QuoteResult where
  time_hours : ℚ
  material_grams : ℚ
  speedScalingFactor : ℚ
deriving DecidableEq

/-- The inputs of one simulator run after the geometry guard has passed. -/
structure QuoteInputs where
  total_volume_cm3 : ℚ
  dims_mm : Dims
  material : Material
  nozzleDiameter : ℚ
  layerHeight : ℚ
  infillPercent : ℚ
  wallCount : ℚ
  settings : Settings
  supportPercent : ℚ

/-! Each of the following definitions embeds one `const ... =` line of
`calculateQuoteLocally` (src/unnamed/part_000 lines 154–227). -/

/-- Embeds `line_width_mm = nozzleDiameter * 1.2` (line 158). -/
def line_width_mm (q : QuoteInputs) : ℚ := q.nozzleDiameter * 1.2

/-- Embeds `speed_modifier = 1 - material.speed_modifier_percent / 100` (line 160). -/
def speed_modifier (q : QuoteInputs) : ℚ :=
  1 - q.material.speed_modifier_percent / 100

/-- Embeds `top_bottom_thickness_mm = nozzleDiameter * wallCount` (line 161). -/
def top_bottom_thickness_mm (q : QuoteInputs) : ℚ := q.nozzleDiameter * q.wallCount

/-- The flow-limited `speedScalingFactor` (lines 164–173).  The JavaScript
guard `if (maxFlowRate)` is falsy both when the field is absent and when it is
exactly `0`, so both cases leave the factor at `1`. -/
def speedScalingFactor (q : QuoteInputs) : ℚ :=
  match q.material.max_flow_rate_mm3_s with
  | none => 1
  | some maxFlowRate =>
      if maxFlowRate = 0 then 1
      else
        let theoreticalFlowRate :=
          q.layerHeight * line_width_mm q * q.settings.speed_infill_mm_s
        if maxFlowRate < theoreticalFlowRate then maxFlowRate / theoreticalFlowRate
        else 1

/-- Embeds `effective_speed_wall_mm_s` (line 176). -/
def effective_speed_wall_mm_s (q : QuoteInputs) : ℚ :=
  q.settings.speed_wall_mm_s * speedScalingFactor q

/-- Embeds `effective_speed_infill_mm_s` (line 177). -/
def effective_speed_infill_mm_s (q : QuoteInputs) : ℚ :=
  q.settings.speed_infill_mm_s * speedScalingFactor q

/-- Embeds `effective_speed_top_bottom_mm_s` (line 178). -/
def effective_speed_top_bottom_mm_s (q : QuoteInputs) : ℚ :=
  q.settings.speed_top_bottom_mm_s * speedScalingFactor q

/-- Embeds `num_layers = dims_mm.z / layerHeight` (line 181). -/
def num_layers (q : QuoteInputs) : ℚ := q.dims_mm.z / q.layerHeight

/-- Embeds `avg_layer_area_mm2 = (total_volume_cm3 * 1000) / dims_mm.z` (line 182). -/
def avg_layer_area_mm2 (q : QuoteInputs) : ℚ :=
  q.total_volume_cm3 * 1000 / q.dims_mm.z

/-- Embeds `avg_perimeter_mm = 2 * (dims_mm.x + dims_mm.y)` (line 184). -/
def avg_perimeter_mm (q : QuoteInputs) : ℚ := 2 * (q.dims_mm.x + q.dims_mm.y)

/-- Embeds `wall_path_length_per_layer_mm` (line 187). -/
def wall_path_length_per_layer_mm (q : QuoteInputs) : ℚ :=
  avg_perimeter_mm q * q.wallCount

/-- Embeds `wall_area_per_layer_mm2` (line 188). -/
def wall_area_per_layer_mm2 (q : QuoteInputs) : ℚ :=
  wall_path_length_per_layer_mm q * line_width_mm q

/-- Embeds `infill_area_per_layer_mm2 = Math.max(0, avg_layer_area - wall_area)`
(line 189). -/
def infill_area_per_layer_mm2 (q : QuoteInputs) : ℚ :=
  max 0 (avg_layer_area_mm2 q - wall_area_per_layer_mm2 q)

/-- Embeds `infill_path_length_per_layer_mm` (line 190). -/
def infill_path_length_per_layer_mm (q : QuoteInputs) : ℚ :=
  infill_area_per_layer_mm2 q * (q.infillPercent / 100) / line_width_mm q

/-- Embeds `num_top_bottom_layers = Math.ceil(top_bottom_thickness / layerHeight) * 2`
(line 191). -/
def num_top_bottom_layers (q : QuoteInputs) : ℚ :=
  ((⌈top_bottom_thickness_mm q / q.layerHeight⌉ : ℤ) : ℚ) * 2

/-- Embeds `solid_layer_path_length_mm = avg_layer_area / line_width` (line 192). -/
def solid_layer_path_length_mm (q : QuoteInputs) : ℚ :=
  avg_layer_area_mm2 q / line_width_mm q

/-- Embeds `time_walls_s` (line 196). -/
def time_walls_s (q : QuoteInputs) : ℚ :=
  wall_path_length_per_layer_mm q * num_layers q / effective_speed_wall_mm_s q

/-- Embeds `time_infill_s` (line 197). -/
def time_infill_s (q : QuoteInputs) : ℚ :=
  infill_path_length_per_layer_mm q * num_layers q / effective_speed_infill_mm_s q

/-- Embeds `time_top_bottom_s` (line 198). -/
def time_top_bottom_s (q : QuoteInputs) : ℚ :=
  solid_layer_path_length_mm q * num_top_bottom_layers q /
    effective_speed_top_bottom_mm_s q

/-- Embeds `time_travel_s = num_layers * ((x + y) * 0.5) / speed_travel` (line 200). -/
def time_travel_s (q : QuoteInputs) : ℚ :=
  num_layers q * ((q.dims_mm.x + q.dims_mm.y) * (1/2)) / q.settings.speed_travel_mm_s

/-- Embeds `total_print_time_s = time_walls + time_infill + time_top_bottom`
(line 202). -/
def total_print_time_s (q : QuoteInputs) : ℚ :=
  time_walls_s q + time_infill_s q + time_top_bottom_s q

/-- Embeds `time_support_s = total_print_time_s * (supportPercent / 100)` (line 205). -/
def time_support_s (q : QuoteInputs) : ℚ :=
  total_print_time_s q * (q.supportPercent / 100)

/-- Embeds `base_time_s = total_print_time_s + time_travel_s + time_support_s`
(line 207). -/
def base_time_s (q : QuoteInputs) : ℚ :=
  total_print_time_s q + time_travel_s q + time_support_s q

/-- Embeds `final_time_s = base_time_s * acceleration_overhead_factor * speed_modifier`
(line 210). -/
def final_time_s (q : QuoteInputs) : ℚ :=
  base_time_s q * q.settings.acceleration_overhead_factor * speed_modifier q

/-- Embeds `time_hours = final_time_s / 3600` (line 211). -/
def time_hours (q : QuoteInputs) : ℚ := final_time_s q / 3600

/-- Embeds `wall_volume_mm3` (line 215). -/
def wall_volume_mm3 (q : QuoteInputs) : ℚ :=
  wall_path_length_per_layer_mm q * line_width_mm q * q.layerHeight * num_layers q

/-- Embeds `infill_volume_mm3` (line 216). -/
def infill_volume_mm3 (q : QuoteInputs) : ℚ :=
  infill_path_length_per_layer_mm q * line_width_mm q * q.layerHeight * num_layers q

/-- Embeds `top_bottom_volume_mm3` (line 217). -/
def top_bottom_volume_mm3 (q : QuoteInputs) : ℚ :=
  solid_layer_path_length_mm q * line_width_mm q * q.layerHeight *
    num_top_bottom_layers q

/-- Embeds `model_volume_cm3 = (wall + infill + top_bottom volumes) / 1000` (line 219). -/
def model_volume_cm3 (q : QuoteInputs) : ℚ :=
  (wall_volume_mm3 q + infill_volume_mm3 q + top_bottom_volume_mm3 q) / 1000

/-- Embeds `support_volume_cm3 = model_volume_cm3 * (supportPercent / 100)` (line 222). -/
def support_volume_cm3 (q : QuoteInputs) : ℚ :=
  model_volume_cm3 q * (q.supportPercent / 100)

/-- Embeds `final_volume_cm3 = model_volume_cm3 + support_volume_cm3` (line 224). -/
def final_volume_cm3 (q : QuoteInputs) : ℚ :=
  model_volume_cm3 q + support_volume_cm3 q

/-- Embeds `material_grams = final_volume_cm3 * material_density_g_cm3` (line 225). -/
def material_grams (q : QuoteInputs) : ℚ :=
  final_volume_cm3 q * q.material.density_g_cm3

/-- The record built at line 227. -/
def quoteCore (q : QuoteInputs) : QuoteResult :=
  { time_hours := time_hours q
    material_grams := material_grams q
    speedScalingFactor := speedScalingFactor q }

/-- The error thrown at line 151. -/
def geometryErrorMsg : String := "Cannot calculate quote without model geometry."

/-- Embeds `calculateQuoteLocally` (lines 140–228).  The guard
`if (!validationResult.volume_cm3 || !validationResult.dimensions_mm)` throws;
JavaScript falsiness makes a present-but-zero `volume_cm3` take the error
branch exactly like an absent one (`dimensions_mm` is an object, which is
truthy whenever present). -/
def calculateQuoteLocally (validationResult : ValidationResult)
    (material : Material) (nozzleDiameter layerHeight infillPercent wallCount : ℚ)
    (settings : Settings) (supportPercent : ℚ) : Except String QuoteResult :=
  match validationResult.volume_cm3, validationResult.dimensions_mm with
  | some v, some dims =>
      if v = 0 then Except.error geometryErrorMsg
      else
        Except.ok (quoteCore
          { total_volume_cm3 := v
            dims_mm := dims
            material := material
            nozzleDiameter := nozzleDiameter
            layerHeight := layerHeight
            infillPercent := infillPercent
            wallCount := wallCount
            settings := settings
            supportPercent := supportPercent })
  | _, _ => Except.error geometryErrorMsg

/-! ### Pricing engine: the `finalPrice` `useMemo` of `App`
(src/unnamed/part_000 lines 747–783). -/

/-- The comparator of `settings.pricingTiers.sort((a,b) => a.from_hours - b.from_hours)`:
tiers ordered by `from_hours`. -/
def tierLE (a b : PricingTier) : Prop := a.from_hours ≤ b.from_hours

instance : DecidableRel tierLE :=
  fun a b => inferInstanceAs (Decidable (a.from_hours ≤ b.from_hours))

instance : IsTotal PricingTier tierLE := ⟨fun a b => le_total a.from_hours b.from_hours⟩

instance : IsTrans PricingTier tierLE := ⟨fun _ _ _ h h' => le_trans h h'⟩

/-- Embeds `Array.prototype.sort` on the tier table (line 753).  The JavaScript sort
is in place: the caller's `settings.pricingTiers` array itself ends up in this
order. -/
def sortTiers (tiers : List PricingTier) : List PricingTier :=
  List.insertionSort tierLE tiers

/-- The `find` predicate of line 754:
`totalHours >= tier.from_hours && totalHours < tier.to_hours`.
`to_hours = none` models the `Infinity` upper bound of the last tier, for
which the strict comparison is always true. -/
def tierMatches (totalHours : ℚ) (tier : PricingTier) : Bool :=
  decide (tier.from_hours ≤ totalHours) &&
    match tier.to_hours with
    | none => true
    | some upper => decide (totalHours < upper)

/-- Embeds `applicableTier` (lines 752–754): first match in the sorted table. -/
def applicableTier (tiers : List PricingTier) (totalHours : ℚ) : Option PricingTier :=
  (sortTiers tiers).find? (tierMatches totalHours)

/-- First-match discount lookup on an (already sorted) tier list. -/
def discountOfFind (l : List PricingTier) (totalHours : ℚ) : ℚ :=
  match l.find? (tierMatches totalHours) with
  | some tier => tier.discount_percent
  | none => 0

/-- Embeds `discountPercent = applicableTier ? applicableTier.discount_percent : 0`
(line 756). -/
def discountPercentOf (tiers : List PricingTier) (totalHours : ℚ) : ℚ :=
  discountOfFind (sortTiers tiers) totalHours

/-- Tier `a` ends no later than tier `b` begins (the non-overlap relation for
an ordered tier table; an unbounded tier cannot precede another tier without
overlapping it). -/
def tierUpperLE (a b : PricingTier) : Prop :=
  match a.to_hours with
  | none => False
  | some upper => upper ≤ b.from_hours

instance : DecidableRel tierUpperLE := fun a b =>
  match h : a.to_hours with
  | none => isFalse (by simp [tierUpperLE, h])
  | some upper =>
      if hc : upper ≤ b.from_hours then isTrue (by simp [tierUpperLE, h, hc])
      else isFalse (by simp [tierUpperLE, h, hc])

/-- The UI language, which selects the currency rounding branch (lines 770–774). -/
inductive Language where
  | fa
  | en
deriving DecidableEq

/-- The currency rounding of lines 770–774, in exact arithmetic:
`Math.ceil(price / 1000) * 1000` for Toman, `parseFloat(price.toFixed(2))`
(round half away from zero at two decimals; prices are nonnegative, where
this agrees with rounding half up) for USD. -/
def roundPrice (language : Language) (price : ℚ) : ℚ :=
  match language with
  | Language.fa => ((⌈price / 1000⌉ : ℤ) : ℚ) * 1000
  | Language.en => ((round (price * 100) : ℤ) : ℚ) / 100

/-- Embeds `QuoteData` (types.ts), restricted to the two cost fields the pricing
memo reads. -/
structure QuoteData where
  material_cost : ℚ
  machine_time_cost : ℚ

/-- The value produced by the `finalPrice` `useMemo`. -/
structure PriceBreakdown where
  finalPrice : ℚ
  discountAmount : ℚ
  totalMaterialCost : ℚ
  totalMachineCost : ℚ
deriving DecidableEq

/-- The `finalPrice` `useMemo` (lines 747–783).  Because line 753 sorts the
state's tier array in place, the computation's observable effect includes the
new contents of `settings.pricingTiers`; the second component of the result is
that array as it stands after the call (unchanged when the early-return guard
of line 748 fires, since the sort is then never executed).  The guard
`if (!rawQuote || !quantity || !quoteData)` treats a quantity of `0` as
missing. -/
def finalPriceCalc (rawQuote : Option QuoteResult) (quantity : ℚ)
    (quoteData : Option QuoteData) (tiers : List PricingTier)
    (language : Language) : PriceBreakdown × List PricingTier :=
  match rawQuote, quoteData with
  | some raw, some qd =>
      if quantity = 0 then
        ({ finalPrice := 0, discountAmount := 0
           totalMaterialCost := 0, totalMachineCost := 0 }, tiers)
      else
        let totalHours := raw.time_hours * quantity
        let sorted := sortTiers tiers
        let discountPercent :=
          match sorted.find? (tierMatches totalHours) with
          | some tier => tier.discount_percent
          | none => 0
        let singleMachineCost := qd.machine_time_cost
        let singleMaterialCost := qd.material_cost
        let totalMachineCost := singleMachineCost * quantity
        let totalMaterialCost := singleMaterialCost * quantity
        let calculatedDiscount := totalMachineCost * (discountPercent / 100)
        let finalMachineCost := totalMachineCost - calculatedDiscount
        let finalCalculatedPrice := roundPrice language (totalMaterialCost + finalMachineCost)
        ({ finalPrice := finalCalculatedPrice
           discountAmount := calculatedDiscount
           totalMaterialCost := totalMaterialCost
           totalMachineCost := totalMachineCost }, sorted)
  | _, _ =>
      ({ finalPrice := 0, discountAmount := 0
         totalMaterialCost := 0, totalMachineCost := 0 }, tiers)

/-! ## Helper lemmas -/

theorem foldl_add_map_sum {α : Type} (f : α → ℚ) :
    ∀ (l : List α) (init : ℚ),
      l.foldl (fun acc x => acc + f x) init = init + (l.map f).sum
  | [], init => by simp
  | x :: l, init => by
      simp only [List.foldl_cons, List.map_cons, List.sum_cons]
      rw [foldl_add_map_sum f l (init + f x)]
      ring

theorem calculateVolume_eq_abs_totalSigned (positions : List V3)
    (index : Option (List ℕ)) :
    calculateVolume positions index =
      |((facetsOf positions index).map signedVolumeOfFacet).sum| := by
  cases index with
  | none =>
      simp only [calculateVolume, facetsOf]
      rw [foldl_add_map_sum (fun t : V3 × V3 × V3 =>
        signedVolumeOfTriangle t.1 t.2.1 t.2.2) (triplesOf positions) 0]
      simp only [zero_add]
      rfl
  | some idx =>
      simp only [calculateVolume, facetsOf]
      rw [foldl_add_map_sum (fun t : ℕ × ℕ × ℕ =>
        signedVolumeOfTriangle (positions.getD t.1 (0, 0, 0))
          (positions.getD t.2.1 (0, 0, 0)) (positions.getD t.2.2 (0, 0, 0)))
        (triplesOf idx) 0]
      simp only [zero_add, List.map_map]
      rfl

theorem dot_zero_right (t : V3) : dot t 0 = 0 := by
  obtain ⟨u, v, w⟩ := t
  simp [dot]

theorem dot_add_right (t a b : V3) : dot t (a + b) = dot t a + dot t b := by
  obtain ⟨u, v, w⟩ := t
  obtain ⟨a1, a2, a3⟩ := a
  obtain ⟨b1, b2, b3⟩ := b
  simp only [Prod.mk_add_mk, dot]
  ring

theorem cross_anticomm (a b : V3) : cross a b = -cross b a := by
  obtain ⟨a1, a2, a3⟩ := a
  obtain ⟨b1, b2, b3⟩ := b
  simp only [cross, Prod.neg_mk, Prod.mk.injEq]
  refine ⟨by ring, by ring, by ring⟩

theorem v3_eq_zero_of_eq_neg (v : V3) (h : v = -v) : v = 0 := by
  obtain ⟨a, b, c⟩ := v
  simp only [Prod.neg_mk, Prod.mk_eq_zero, Prod.mk.injEq] at h ⊢
  obtain ⟨h1, h2, h3⟩ := h
  refine ⟨by linarith, by linarith, by linarith⟩

theorem signedVolumeOfTriangle_translate (t p1 p2 p3 : V3) :
    signedVolumeOfTriangle (p1 + t) (p2 + t) (p3 + t) =
      signedVolumeOfTriangle p1 p2 p3 + dot t (facetCrossSum p1 p2 p3) / 6 := by
  obtain ⟨u, v, w⟩ := t
  obtain ⟨a1, a2, a3⟩ := p1
  obtain ⟨b1, b2, b3⟩ := p2
  obtain ⟨c1, c2, c3⟩ := p3
  simp only [Prod.mk_add_mk, signedVolumeOfTriangle, dot, cross, facetCrossSum]
  ring

theorem edgeCrossSum_cons (tri : V3 × V3 × V3) (m : Mesh) :
    edgeCrossSum (tri :: m) =
      facetCrossSum tri.1 tri.2.1 tri.2.2 + edgeCrossSum m := by
  simp only [edgeCrossSum, meshEdges, List.map_cons, List.flatten_cons,
    List.map_append, List.sum_append, edgesOfTri, List.map_cons, List.map_nil,
    List.sum_cons, List.sum_nil, facetCrossSum]
  abel

theorem totalSignedVolume_translate (t : V3) (m : Mesh) :
    totalSignedVolume (translateMesh t m) =
      totalSignedVolume m + dot t (edgeCrossSum m) / 6 := by
  induction m with
  | nil => simp [totalSignedVolume, translateMesh, edgeCrossSum, meshEdges,
      dot_zero_right]
  | cons tri m ih =>
      obtain ⟨p1, p2, p3⟩ := tri
      simp only [totalSignedVolume, translateMesh, List.map_cons,
        List.sum_cons] at ih ⊢
      rw [signedVolumeOfTriangle_translate, edgeCrossSum_cons, dot_add_right, ih]
      simp only [totalSignedVolume, translateMesh]
      ring

theorem edgeCrossSum_eq_zero_of_closed (m : Mesh) (h : IsClosed m) :
    edgeCrossSum m = 0 := by
  apply v3_eq_zero_of_eq_neg
  have h1 := (h.map (fun e : V3 × V3 => cross e.1 e.2)).sum_eq
  rw [List.map_map] at h1
  have h2 : ((fun e : V3 × V3 => cross e.1 e.2) ∘ Prod.swap) =
      fun e : V3 × V3 => -(cross e.1 e.2) := by
    funext e
    exact cross_anticomm e.2 e.1
  rw [h2] at h1
  have h3 : ((meshEdges m).map fun e : V3 × V3 => -(cross e.1 e.2)) =
      (((meshEdges m).map fun e : V3 × V3 => cross e.1 e.2).map fun v => -v) := by
    rw [List.map_map]
    rfl
  rw [h3, ← List.sum_neg] at h1
  simpa only [edgeCrossSum] using h1

theorem triplesOf_meshPositions (m : Mesh) : triplesOf (meshPositions m) = m := by
  induction m with
  | nil => rfl
  | cons tri m ih =>
      simp only [meshPositions] at ih ⊢
      show (tri.1, tri.2.1, tri.2.2) ::
          triplesOf ((m.map (fun t => [t.1, t.2.1, t.2.2])).flatten) = tri :: m
      rw [ih]

theorem meshVolume_eq_abs_totalSigned (m : Mesh) :
    meshVolume_cm3 m = |totalSignedVolume m| / 1000 := by
  rw [meshVolume_cm3, volume_cm3_of, calculateVolume_eq_abs_totalSigned]
  simp only [facetsOf, triplesOf_meshPositions]
  rfl

/-! ## Claim theorems -/

/-- C1: for every triangle mesh, indexed (`some idx`) or given as consecutive
position triples (`none`), the reported `volume_cm3` equals the absolute value
of the sum over all facets of the signed tetrahedron volume
`p1 · (p2 × p3) / 6`, divided by 1000 (mm³ → cm³); and a mesh with zero facets
(empty position buffer, or an empty index buffer) yields volume 0. -/
theorem volume_cm3_eq_abs_signed_sum (positions : List V3)
    (index : Option (List ℕ)) :
    volume_cm3_of positions index =
      |((facetsOf positions index).map signedVolumeOfFacet).sum| / 1000
    ∧ volume_cm3_of [] none = 0
    ∧ (∀ ps : List V3, volume_cm3_of ps (some []) = 0) := by
  refine ⟨?_, by simp [volume_cm3_of, calculateVolume, triplesOf],
    fun ps => by simp [volume_cm3_of, calculateVolume, triplesOf]⟩
  rw [volume_cm3_of, calculateVolume_eq_abs_totalSigned]

/-- C7: for every closed (consistently wound, boundary-free) triangle mesh and
every translation, the analyzer computes the same volume for the translated
mesh as for the original. -/
theorem volume_translation_invariant (m : Mesh) (t : V3) (h : IsClosed m) :
    meshVolume_cm3 (translateMesh t m) = meshVolume_cm3 m := by
  rw [meshVolume_eq_abs_totalSigned, meshVolume_eq_abs_totalSigned,
    totalSignedVolume_translate, edgeCrossSum_eq_zero_of_closed m h,
    dot_zero_right]
  norm_num

/-- Witness for C7: a concrete closed tetrahedron, translated by `(5, -3, 7)`,
keeps its computed volume. -/
theorem volume_translation_invariant_witness :
    IsClosed tetraMesh ∧
      meshVolume_cm3 (translateMesh (5, -3, 7) tetraMesh) =
        meshVolume_cm3 tetraMesh :=
  ⟨by unfold IsClosed; decide,
   volume_translation_invariant tetraMesh (5, -3, 7) (by unfold IsClosed; decide)⟩

/-- C2 counterexample: a validation result whose `volume_cm3` is present but
equal to `0` (with dimensions present) still takes the missing-geometry error
branch, so the error is not raised *only* when a field is absent. -/
theorem quote_errors_on_present_zero_volume :
    calculateQuoteLocally { volume_cm3 := some 0, dimensions_mm := some ⟨100, 100, 100⟩ }
        ⟨1.24, 0, some 20⟩ 0.4 0.2 20 2 ⟨[], 70, 100, 50, 200, 1.15⟩ 10
      = Except.error geometryErrorMsg
    ∧ ({ volume_cm3 := some 0, dimensions_mm := some ⟨100, 100, 100⟩ } :
        ValidationResult).volume_cm3 ≠ none
    ∧ ({ volume_cm3 := some 0, dimensions_mm := some ⟨100, 100, 100⟩ } :
        ValidationResult).dimensions_mm ≠ none := by
  refine ⟨rfl, by simp, by simp⟩

/-- C2 (amended): `calculateQuoteLocally` raises the missing-geometry error if
and only if `volume_cm3` is absent *or equal to zero*, or `dimensions_mm` is
absent; the only error it ever produces is that one (so a failure carries no
partial result, and nothing is silently defaulted). -/
theorem quote_missing_geometry_iff (vr : ValidationResult) (material : Material)
    (nozzleDiameter layerHeight infillPercent wallCount : ℚ) (settings : Settings)
    (supportPercent : ℚ) :
    (calculateQuoteLocally vr material nozzleDiameter layerHeight infillPercent
        wallCount settings supportPercent = Except.error geometryErrorMsg
      ↔ vr.volume_cm3 = none ∨ vr.volume_cm3 = some 0 ∨ vr.dimensions_mm = none)
    ∧ ∀ e, calculateQuoteLocally vr material nozzleDiameter layerHeight
        infillPercent wallCount settings supportPercent = Except.error e →
          e = geometryErrorMsg := by
  obtain ⟨vol, dims⟩ := vr
  rcases vol with _ | v <;> rcases dims with _ | d <;>
    simp only [calculateQuoteLocally]
  · simp
  · simp
  · simp
  · by_cases hv : v = 0 <;> simp [hv]

/-- Witness for C2: at a concrete input with `volume_cm3` absent, the
missing-geometry error is raised. -/
theorem quote_missing_geometry_iff_witness :
    calculateQuoteLocally ⟨none, some ⟨1, 2, 3⟩⟩ ⟨1, 0, none⟩ 1 1 1 1
        ⟨[], 1, 1, 1, 1, 1⟩ 0 = Except.error geometryErrorMsg :=
  (quote_missing_geometry_iff ⟨none, some ⟨1, 2, 3⟩⟩ ⟨1, 0, none⟩ 1 1 1 1
      ⟨[], 1, 1, 1, 1, 1⟩ 0).1.mpr (Or.inl rfl)

/-- C10: a validation result with `volume_cm3` exactly `0` (dimensions present)
produces the very same missing-geometry error as one with `volume_cm3` absent:
at the simulator's interface a zero volume is indistinguishable from an absent
one, and no zero-valued result is returned. -/
theorem zero_volume_same_as_absent (dims : Dims) (material : Material)
    (nozzleDiameter layerHeight infillPercent wallCount : ℚ) (settings : Settings)
    (supportPercent : ℚ) :
    calculateQuoteLocally ⟨some 0, some dims⟩ material nozzleDiameter layerHeight
        infillPercent wallCount settings supportPercent
      = calculateQuoteLocally ⟨none, some dims⟩ material nozzleDiameter layerHeight
          infillPercent wallCount settings supportPercent
    ∧ calculateQuoteLocally ⟨some 0, some dims⟩ material nozzleDiameter layerHeight
        infillPercent wallCount settings supportPercent
      = Except.error geometryErrorMsg := by
  constructor <;> simp [calculateQuoteLocally]

/-- Shared bounds for the flow-limited factor: with positive nozzle diameter,
layer height and infill speed, and a nonnegative (or absent) maximum flow
rate, the computed factor lies in `(0, 1]`. -/
theorem speedScalingFactor_bounds (q : QuoteInputs)
    (hd : 0 < q.nozzleDiameter) (hh : 0 < q.layerHeight)
    (hs : 0 < q.settings.speed_infill_mm_s)
    (hm : ∀ m, q.material.max_flow_rate_mm3_s = some m → 0 ≤ m) :
    0 < speedScalingFactor q ∧ speedScalingFactor q ≤ 1 := by
  have hlw : 0 < line_width_mm q := mul_pos hd (by norm_num)
  have hθ : 0 < q.layerHeight * line_width_mm q * q.settings.speed_infill_mm_s :=
    mul_pos (mul_pos hh hlw) hs
  rcases hmf : q.material.max_flow_rate_mm3_s with _ | m
  · simp [speedScalingFactor, hmf]
  · by_cases hm0 : m = 0
    · simp [speedScalingFactor, hmf, hm0]
    · have hmpos : 0 < m := lt_of_le_of_ne (hm m hmf) (Ne.symm hm0)
      by_cases hlt : m < q.layerHeight * line_width_mm q * q.settings.speed_infill_mm_s
      · have hval : speedScalingFactor q =
            m / (q.layerHeight * line_width_mm q * q.settings.speed_infill_mm_s) := by
          simp [speedScalingFactor, hmf, hm0, hlt]
        rw [hval]
        exact ⟨div_pos hmpos hθ, le_of_lt ((div_lt_one hθ).mpr hlt)⟩
      · simp [speedScalingFactor, hmf, hm0, hlt]

/-- C4 counterexample: with a *specified* maximum flow rate of exactly `0`
(nozzle 0.4 mm, layer 0.2 mm, infill speed 100 mm/s, so the theoretical rate
9.6 mm³/s exceeds it) the code computes factor `1`, not the claimed ratio
`max_flow_rate / theoretical_rate = 0` — so the claim's formula does not hold
for every material that specifies a maximum flow rate. -/
theorem speed_factor_zero_flow_not_ratio :
    speedScalingFactor ⟨1000, ⟨100, 100, 100⟩, ⟨1.24, 0, some 0⟩, 0.4, 0.2, 20, 2,
        ⟨[], 70, 100, 50, 200, 1.15⟩, 0⟩ = 1
    ∧ ((0.2 : ℚ) * (0.4 * 1.2) * 100) > 0
    ∧ (0 : ℚ) / ((0.2 : ℚ) * (0.4 * 1.2) * 100) = 0
    ∧ (1 : ℚ) ≠ (0 : ℚ) := by
  refine ⟨by decide, by norm_num, by norm_num, by norm_num⟩

/-- C4 (amended): for positive nozzle diameter, layer height and configured
infill speed, and a nonnegative (or absent) maximum flow rate: the factor
equals `max_flow_rate / (layer_height × (nozzle × 1.2) × infill_speed)` when
the material specifies a *positive* maximum flow rate that the theoretical
rate exceeds (and is then `< 1`); it equals `1` otherwise — including when the
specified maximum flow rate is exactly `0`, which the code treats like an
absent one.  The factor always lies in `(0, 1]`, it multiplies the wall,
infill and top/bottom speeds, and the travel time uses the raw travel speed. -/
theorem speed_scaling_factor_spec (q : QuoteInputs)
    (hd : 0 < q.nozzleDiameter) (hh : 0 < q.layerHeight)
    (hs : 0 < q.settings.speed_infill_mm_s)
    (hm : ∀ m, q.material.max_flow_rate_mm3_s = some m → 0 ≤ m) :
    (∀ m, q.material.max_flow_rate_mm3_s = some m → 0 < m →
      m < q.layerHeight * (q.nozzleDiameter * 1.2) * q.settings.speed_infill_mm_s →
        speedScalingFactor q =
            m / (q.layerHeight * (q.nozzleDiameter * 1.2) *
              q.settings.speed_infill_mm_s)
          ∧ speedScalingFactor q < 1)
    ∧ (q.material.max_flow_rate_mm3_s = none → speedScalingFactor q = 1)
    ∧ (∀ m, q.material.max_flow_rate_mm3_s = some m →
        (m = 0 ∨ q.layerHeight * (q.nozzleDiameter * 1.2) *
            q.settings.speed_infill_mm_s ≤ m) →
          speedScalingFactor q = 1)
    ∧ (0 < speedScalingFactor q ∧ speedScalingFactor q ≤ 1)
    ∧ effective_speed_wall_mm_s q = q.settings.speed_wall_mm_s * speedScalingFactor q
    ∧ effective_speed_infill_mm_s q =
        q.settings.speed_infill_mm_s * speedScalingFactor q
    ∧ effective_speed_top_bottom_mm_s q =
        q.settings.speed_top_bottom_mm_s * speedScalingFactor q
    ∧ time_travel_s q = num_layers q * ((q.dims_mm.x + q.dims_mm.y) * (1/2)) /
        q.settings.speed_travel_mm_s := by
  have hθ : 0 < q.layerHeight * (q.nozzleDiameter * 1.2) *
      q.settings.speed_infill_mm_s :=
    mul_pos (mul_pos hh (mul_pos hd (by norm_num))) hs
  refine ⟨?_, ?_, ?_, speedScalingFactor_bounds q hd hh hs hm, rfl, rfl, rfl, rfl⟩
  · intro m hmf hmpos hlt
    have hval : speedScalingFactor q =
        m / (q.layerHeight * (q.nozzleDiameter * 1.2) *
          q.settings.speed_infill_mm_s) := by
      simp [speedScalingFactor, hmf, ne_of_gt hmpos, line_width_mm, hlt]
    exact ⟨hval, hval ▸ (div_lt_one hθ).mpr hlt⟩
  · intro hmf
    simp [speedScalingFactor, hmf]
  · intro m hmf hcase
    rcases hcase with hm0 | hge
    · simp [speedScalingFactor, hmf, hm0]
    · by_cases hm0 : m = 0
      · simp [speedScalingFactor, hmf, hm0]
      · simp [speedScalingFactor, hmf, hm0, line_width_mm, not_lt.mpr hge]

/-- Witness for C4: PLA-like material (maximum flow rate 20 mm³/s), nozzle
0.4 mm, layer 0.28 mm, infill speed 500 mm/s: the theoretical rate 67.2 mm³/s
exceeds 20, so the factor is the claimed ratio and lies in `(0, 1)`. -/
theorem speed_scaling_factor_spec_witness :
    speedScalingFactor ⟨1000, ⟨100, 100, 100⟩, ⟨1.24, 0, some 20⟩, 0.4, 0.28, 20, 2,
        ⟨[], 70, 500, 50, 200, 1.15⟩, 0⟩
      = 20 / ((0.28 : ℚ) * (0.4 * 1.2) * 500)
    ∧ speedScalingFactor ⟨1000, ⟨100, 100, 100⟩, ⟨1.24, 0, some 20⟩, 0.4, 0.28, 20, 2,
        ⟨[], 70, 500, 50, 200, 1.15⟩, 0⟩ < 1 :=
  (speed_scaling_factor_spec
      ⟨1000, ⟨100, 100, 100⟩, ⟨1.24, 0, some 20⟩, 0.4, 0.28, 20, 2,
        ⟨[], 70, 500, 50, 200, 1.15⟩, 0⟩
      (by norm_num) (by norm_num) (by norm_num)
      (fun m hmf => by
        have h2 : (20 : ℚ) = m := Option.some_inj.mp hmf
        linarith)).1 20 rfl (by norm_num) (by norm_num)

/-- C5 counterexample: with valid geometry and a material whose maximum flow
rate is present but exactly `0`, the simulator succeeds (no
invalid-configuration error) and reports a speed-scaling factor of `1`. -/
theorem zero_flow_rate_gives_ok_factor_one :
    (calculateQuoteLocally ⟨some 1000, some ⟨100, 100, 100⟩⟩ ⟨1.24, 0, some 0⟩
        0.4 0.2 20 2 ⟨[], 70, 100, 50, 200, 1.15⟩ 10).toOption.map
      QuoteResult.speedScalingFactor = some 1 := by
  rfl

/-- C5 (amended): a maximum flow rate that is present but exactly zero is
treated the same as an absent one — the factor is `1` and no error is raised;
`calculateQuoteLocally` either succeeds or fails with the missing-geometry
error, so no invalid-configuration error exists anywhere in the computation. -/
theorem zero_flow_treated_as_absent (vol : ℚ) (dims : Dims) (density smp : ℚ)
    (nozzleDiameter layerHeight infillPercent wallCount : ℚ) (settings : Settings)
    (supportPercent : ℚ) (vr : ValidationResult) (material : Material) :
    speedScalingFactor ⟨vol, dims, ⟨density, smp, some 0⟩, nozzleDiameter,
        layerHeight, infillPercent, wallCount, settings, supportPercent⟩
      = speedScalingFactor ⟨vol, dims, ⟨density, smp, none⟩, nozzleDiameter,
          layerHeight, infillPercent, wallCount, settings, supportPercent⟩
    ∧ speedScalingFactor ⟨vol, dims, ⟨density, smp, some 0⟩, nozzleDiameter,
        layerHeight, infillPercent, wallCount, settings, supportPercent⟩ = 1
    ∧ ((calculateQuoteLocally vr material nozzleDiameter layerHeight infillPercent
          wallCount settings supportPercent).isOk = true
        ∨ calculateQuoteLocally vr material nozzleDiameter layerHeight infillPercent
            wallCount settings supportPercent = Except.error geometryErrorMsg) := by
  refine ⟨rfl, rfl, ?_⟩
  obtain ⟨v?, d?⟩ := vr
  rcases v? with _ | v <;> rcases d? with _ | d <;>
    simp only [calculateQuoteLocally]
  · right; trivial
  · right; trivial
  · right; trivial
  · by_cases hv : v = 0
    · right; simp [hv]
    · left; simp [hv, Except.isOk, Except.toBool]

/-- C6: two simulator runs with identical geometry (positive volume and
dimensions) and identical process parameters, differing only in
`support_percent` 0 versus 25, give strictly larger `time_hours` and strictly
larger `material_grams` for the 25% run; moreover for every support
percentage the support time is `(wall + infill + top/bottom time) ×
support_percent / 100`, and the base it is added to lists travel separately
(travel is excluded from the support base). -/
theorem support_strictly_increases_time_and_material
    (vol : ℚ) (dims : Dims) (material : Material)
    (nozzleDiameter layerHeight infillPercent wallCount : ℚ) (settings : Settings)
    (hx : 0 < dims.x) (hy : 0 < dims.y) (hz : 0 < dims.z) (hv : 0 < vol)
    (hh : 0 < layerHeight) (hd : 0 < nozzleDiameter) (hw : 1 ≤ wallCount)
    (hi : 0 ≤ infillPercent)
    (hsw : 0 < settings.speed_wall_mm_s) (hsi : 0 < settings.speed_infill_mm_s)
    (hst : 0 < settings.speed_top_bottom_mm_s)
    (ha : 0 < settings.acceleration_overhead_factor)
    (hmod : material.speed_modifier_percent < 100)
    (hden : 0 < material.density_g_cm3)
    (hm : ∀ m, material.max_flow_rate_mm3_s = some m → 0 ≤ m) :
    (quoteCore ⟨vol, dims, material, nozzleDiameter, layerHeight, infillPercent,
        wallCount, settings, 25⟩).time_hours >
      (quoteCore ⟨vol, dims, material, nozzleDiameter, layerHeight, infillPercent,
        wallCount, settings, 0⟩).time_hours
    ∧ (quoteCore ⟨vol, dims, material, nozzleDiameter, layerHeight, infillPercent,
        wallCount, settings, 25⟩).material_grams >
        (quoteCore ⟨vol, dims, material, nozzleDiameter, layerHeight, infillPercent,
          wallCount, settings, 0⟩).material_grams
    ∧ ∀ sp : ℚ,
        time_support_s ⟨vol, dims, material, nozzleDiameter, layerHeight,
            infillPercent, wallCount, settings, sp⟩ =
          (time_walls_s ⟨vol, dims, material, nozzleDiameter, layerHeight,
              infillPercent, wallCount, settings, sp⟩ +
            time_infill_s ⟨vol, dims, material, nozzleDiameter, layerHeight,
              infillPercent, wallCount, settings, sp⟩ +
            time_top_bottom_s ⟨vol, dims, material, nozzleDiameter, layerHeight,
              infillPercent, wallCount, settings, sp⟩) * (sp / 100)
        ∧ base_time_s ⟨vol, dims, material, nozzleDiameter, layerHeight,
            infillPercent, wallCount, settings, sp⟩ =
          total_print_time_s ⟨vol, dims, material, nozzleDiameter, layerHeight,
              infillPercent, wallCount, settings, sp⟩ +
            time_travel_s ⟨vol, dims, material, nozzleDiameter, layerHeight,
              infillPercent, wallCount, settings, sp⟩ +
            time_support_s ⟨vol, dims, material, nozzleDiameter, layerHeight,
              infillPercent, wallCount, settings, sp⟩ := by
  have hfac : 0 < speedScalingFactor
      ⟨vol, dims, material, nozzleDiameter, layerHeight, infillPercent,
        wallCount, settings, 0⟩ :=
    (speedScalingFactor_bounds _ hd hh hsi hm).1
  set q0 : QuoteInputs :=
    ⟨vol, dims, material, nozzleDiameter, layerHeight, infillPercent,
      wallCount, settings, 0⟩ with hq0
  set q25 : QuoteInputs :=
    ⟨vol, dims, material, nozzleDiameter, layerHeight, infillPercent,
      wallCount, settings, 25⟩ with hq25
  have hlw : 0 < line_width_mm q0 := mul_pos hd (by norm_num)
  have hnl : 0 < num_layers q0 := div_pos hz hh
  have hwc : 0 < wallCount := lt_of_lt_of_le one_pos hw
  have hperim : 0 < avg_perimeter_mm q0 := mul_pos two_pos (add_pos hx hy)
  have hwp : 0 < wall_path_length_per_layer_mm q0 := mul_pos hperim hwc
  have hwalls : 0 < time_walls_s q0 :=
    div_pos (mul_pos hwp hnl) (mul_pos hsw hfac)
  have hala : 0 < avg_layer_area_mm2 q0 := div_pos (mul_pos hv (by norm_num)) hz
  have hip : 0 ≤ infill_path_length_per_layer_mm q0 :=
    div_nonneg (mul_nonneg (le_max_left 0 _) (div_nonneg hi (by norm_num))) hlw.le
  have hinf : 0 ≤ time_infill_s q0 :=
    div_nonneg (mul_nonneg hip hnl.le) (mul_pos hsi hfac).le
  have hsolid : 0 < solid_layer_path_length_mm q0 := div_pos hala hlw
  have hntb : 0 ≤ num_top_bottom_layers q0 := by
    have h1 : (0 : ℤ) ≤ ⌈top_bottom_thickness_mm q0 / q0.layerHeight⌉ :=
      Int.ceil_nonneg (div_nonneg (mul_nonneg hd.le hwc.le) hh.le)
    have h2 : (0 : ℚ) ≤ ((⌈top_bottom_thickness_mm q0 / q0.layerHeight⌉ : ℤ) : ℚ) := by
      exact_mod_cast h1
    exact mul_nonneg h2 (by norm_num)
  have htb : 0 ≤ time_top_bottom_s q0 :=
    div_nonneg (mul_nonneg hsolid.le hntb) (mul_pos hst hfac).le
  have hT : 0 < total_print_time_s q0 :=
    add_pos_of_pos_of_nonneg (add_pos_of_pos_of_nonneg hwalls hinf) htb
  have hS : 0 < speed_modifier q0 := by
    show (0 : ℚ) < 1 - material.speed_modifier_percent / 100
    linarith
  refine ⟨?_, ?_, fun sp => ⟨rfl, rfl⟩⟩
  · show time_hours q0 < time_hours q25
    have e0 : time_hours q0 =
        (total_print_time_s q0 + time_travel_s q0 + total_print_time_s q0 * (0 / 100)) *
          settings.acceleration_overhead_factor * speed_modifier q0 / 3600 := rfl
    have e25 : time_hours q25 =
        (total_print_time_s q0 + time_travel_s q0 + total_print_time_s q0 * (25 / 100)) *
          settings.acceleration_overhead_factor * speed_modifier q0 / 3600 := rfl
    rw [e0, e25]
    have hbase : total_print_time_s q0 + time_travel_s q0 +
          total_print_time_s q0 * (0 / 100) <
        total_print_time_s q0 + time_travel_s q0 +
          total_print_time_s q0 * (25 / 100) := by
      have : 0 < total_print_time_s q0 * (25 / 100) := by positivity
      linarith
    have h1 := mul_lt_mul_of_pos_right (mul_lt_mul_of_pos_right hbase ha) hS
    exact (div_lt_div_iff_of_pos_right (by norm_num)).mpr h1
  · show material_grams q0 < material_grams q25
    have hwv : 0 < wall_volume_mm3 q0 :=
      mul_pos (mul_pos (mul_pos hwp hlw) hh) hnl
    have hiv : 0 ≤ infill_volume_mm3 q0 :=
      mul_nonneg (mul_nonneg (mul_nonneg hip hlw.le) hh.le) hnl.le
    have htbv : 0 ≤ top_bottom_volume_mm3 q0 :=
      mul_nonneg (mul_nonneg (mul_nonneg hsolid.le hlw.le) hh.le) hntb
    have hmv : 0 < model_volume_cm3 q0 := div_pos (by linarith) (by norm_num)
    have e0g : material_grams q0 =
        (model_volume_cm3 q0 + model_volume_cm3 q0 * (0 / 100)) *
          material.density_g_cm3 := rfl
    have e25g : material_grams q25 =
        (model_volume_cm3 q0 + model_volume_cm3 q0 * (25 / 100)) *
          material.density_g_cm3 := rfl
    rw [e0g, e25g]
    have hmodel : model_volume_cm3 q0 + model_volume_cm3 q0 * (0 / 100) <
        model_volume_cm3 q0 + model_volume_cm3 q0 * (25 / 100) := by
      have : 0 < model_volume_cm3 q0 * (25 / 100) := by positivity
      linarith
    exact mul_lt_mul_of_pos_right hmodel hden

/-- Witness for C6: the spec's reference cube (100 mm cube, 1000 cm³, PLA-like
material) printed with 0.4 mm nozzle, 0.2 mm layers, 20% infill, 2 walls:
support 25% strictly increases both outputs. -/
theorem support_increase_witness :
    (quoteCore ⟨1000, ⟨100, 100, 100⟩, ⟨1.24, 0, some 20⟩, 0.4, 0.2, 20, 2,
        ⟨[], 70, 100, 50, 200, 1.15⟩, 25⟩).time_hours >
      (quoteCore ⟨1000, ⟨100, 100, 100⟩, ⟨1.24, 0, some 20⟩, 0.4, 0.2, 20, 2,
        ⟨[], 70, 100, 50, 200, 1.15⟩, 0⟩).time_hours
    ∧ (quoteCore ⟨1000, ⟨100, 100, 100⟩, ⟨1.24, 0, some 20⟩, 0.4, 0.2, 20, 2,
        ⟨[], 70, 100, 50, 200, 1.15⟩, 25⟩).material_grams >
        (quoteCore ⟨1000, ⟨100, 100, 100⟩, ⟨1.24, 0, some 20⟩, 0.4, 0.2, 20, 2,
          ⟨[], 70, 100, 50, 200, 1.15⟩, 0⟩).material_grams := by
  have h := support_strictly_increases_time_and_material 1000 ⟨100, 100, 100⟩
      ⟨1.24, 0, some 20⟩ 0.4 0.2 20 2 ⟨[], 70, 100, 50, 200, 1.15⟩
      (by norm_num) (by norm_num) (by norm_num) (by norm_num) (by norm_num)
      (by norm_num) (by norm_num) (by norm_num) (by norm_num) (by norm_num)
      (by norm_num) (by norm_num) (by norm_num) (by norm_num)
      (fun m hmf => by
        have h2 : (20 : ℚ) = m := Option.some_inj.mp hmf
        linarith)
  exact ⟨h.1, h.2.1⟩

/-! ## Pricing helper lemmas -/

theorem roundPrice_zero (language : Language) : roundPrice language 0 = 0 := by
  cases language <;> simp [roundPrice]

theorem tierMatches_iff (h : ℚ) (t : PricingTier) :
    tierMatches h t = true ↔
      t.from_hours ≤ h ∧ ∀ upper, t.to_hours = some upper → h < upper := by
  cases ht : t.to_hours <;> simp [tierMatches, ht]

theorem find_first_min_from (h : ℚ) (l : List PricingTier)
    (hsort : List.Sorted tierLE l) (t : PricingTier)
    (hfind : l.find? (tierMatches h) = some t) :
    tierMatches h t = true ∧ t ∈ l ∧
      ∀ u ∈ l, tierMatches h u = true → t.from_hours ≤ u.from_hours := by
  induction l with
  | nil => simp at hfind
  | cons a l ih =>
      cases hpa : tierMatches h a with
      | true =>
          rw [List.find?_cons_of_pos _ hpa] at hfind
          obtain rfl : a = t := Option.some_inj.mp hfind
          refine ⟨hpa, List.mem_cons_self a l, ?_⟩
          intro u hu _
          rcases List.mem_cons.mp hu with rfl | hu'
          · exact le_refl _
          · exact List.rel_of_sorted_cons hsort u hu'
      | false =>
          rw [List.find?_cons_of_neg _ (by simp [hpa])] at hfind
          obtain ⟨h1, h2, h3⟩ := ih hsort.of_cons hfind
          refine ⟨h1, List.mem_cons_of_mem a h2, ?_⟩
          intro u hu hmu
          rcases List.mem_cons.mp hu with rfl | hu'
          · rw [hpa] at hmu
            exact absurd hmu (by simp)
          · exact h3 u hu' hmu

theorem discountOfFind_mono (h1 h2 : ℚ) (hle : h1 ≤ h2) (l : List PricingTier)
    (hno : List.Pairwise tierUpperLE l)
    (hdisc : List.Pairwise
      (fun a b => a.discount_percent ≤ b.discount_percent) l)
    (hex1 : ∃ u ∈ l, tierMatches h1 u = true)
    (hex2 : ∃ v ∈ l, tierMatches h2 v = true) :
    discountOfFind l h1 ≤ discountOfFind l h2 := by
  induction l with
  | nil =>
      obtain ⟨u, hu, _⟩ := hex1
      simp at hu
  | cons a l ih =>
      obtain ⟨u, hu, hmu⟩ := hex1
      obtain ⟨v, hv, hmv⟩ := hex2
      cases hpa1 : tierMatches h1 a with
      | true =>
          cases hpa2 : tierMatches h2 a with
          | true =>
              simp [discountOfFind, List.find?_cons_of_pos _ hpa1,
                List.find?_cons_of_pos _ hpa2]
          | false =>
              have hv' : v ∈ l := by
                rcases List.mem_cons.mp hv with rfl | hv'
                · rw [hpa2] at hmv
                  exact absurd hmv (by simp)
                · exact hv'
              have hsome : (l.find? (tierMatches h2)).isSome :=
                List.find?_isSome.mpr ⟨v, hv', hmv⟩
              obtain ⟨w, hw⟩ := Option.isSome_iff_exists.mp hsome
              have hwmem : w ∈ l := List.mem_of_find?_eq_some hw
              have hdle : a.discount_percent ≤ w.discount_percent :=
                (List.pairwise_cons.mp hdisc).1 w hwmem
              have hf1 : (a :: l).find? (tierMatches h1) = some a :=
                List.find?_cons_of_pos _ hpa1
              have hf2 : (a :: l).find? (tierMatches h2) = some w := by
                rw [List.find?_cons_of_neg _ (by simp [hpa2])]
                exact hw
              simp only [discountOfFind, hf1, hf2]
              exact hdle
      | false =>
          have hu' : u ∈ l := by
            rcases List.mem_cons.mp hu with rfl | hu'
            · rw [hpa1] at hmu
              exact absurd hmu (by simp)
            · exact hu'
          cases hpa2 : tierMatches h2 a with
          | true =>
              exfalso
              have hUL : tierUpperLE a u := (List.pairwise_cons.mp hno).1 u hu'
              rcases hta : a.to_hours with _ | upper
              · simp only [tierUpperLE, hta] at hUL
              · simp only [tierUpperLE, hta] at hUL
                have hufrom : u.from_hours ≤ h1 := ((tierMatches_iff h1 u).mp hmu).1
                have hh2 : h2 < upper := ((tierMatches_iff h2 a).mp hpa2).2 upper hta
                linarith
          | false =>
              have hv' : v ∈ l := by
                rcases List.mem_cons.mp hv with rfl | hv'
                · rw [hpa2] at hmv
                  exact absurd hmv (by simp)
                · exact hv'
              have hrec := ih hno.of_cons hdisc.of_cons ⟨u, hu', hmu⟩ ⟨v, hv', hmv⟩
              have hf1 : (a :: l).find? (tierMatches h1) = l.find? (tierMatches h1) :=
                List.find?_cons_of_neg _ (by simp [hpa1])
              have hf2 : (a :: l).find? (tierMatches h2) = l.find? (tierMatches h2) :=
                List.find?_cons_of_neg _ (by simp [hpa2])
              simpa only [discountOfFind, hf1, hf2] using hrec

/-- C3 counterexample: the value the pricing memo returns as `finalPrice` is
not the raw `material×q + (machine×q − discount)` sum: with the Toman
currency branch (`language = fa`), material cost 0, machine cost 500,
quantity 1 and an empty tier table, the raw sum is 500 but the returned price
is the rounded-up 1000. -/
theorem finalPrice_rounding_differs :
    (finalPriceCalc (some ⟨1, 1, 1⟩) 1 (some ⟨0, 500⟩) [] Language.fa).1.finalPrice
      = 1000
    ∧ (0 : ℚ) * 1 + ((500 : ℚ) * 1 - 500 * 1 * (0 / 100)) = 500
    ∧ (1000 : ℚ) ≠ 500 := by
  refine ⟨?_, by norm_num, by norm_num⟩
  have h1 : (finalPriceCalc (some ⟨1, 1, 1⟩) 1 (some ⟨0, 500⟩) [] Language.fa).1.finalPrice
      = roundPrice Language.fa ((0 : ℚ) * 1 + ((500 : ℚ) * 1 - 500 * 1 * (0 / 100))) := by
    simp only [finalPriceCalc]
    rw [if_neg (by norm_num : ¬(1 : ℚ) = 0)]
    simp only [sortTiers, List.insertionSort, List.find?_nil]
  have h2 : ((0 : ℚ) * 1 + ((500 : ℚ) * 1 - 500 * 1 * (0 / 100))) = 500 := by norm_num
  rw [h1, h2]
  show ((⌈(500 : ℚ) / 1000⌉ : ℤ) : ℚ) * 1000 = 1000
  have h3 : ⌈(500 : ℚ) / 1000⌉ = (1 : ℤ) := by
    rw [Int.ceil_eq_iff]
    norm_num
  rw [h3]
  norm_num

/-- C3 (amended): for every quantity, simulation result and tier table, the
pricing memo selects the first tier in ascending `from_hours` order whose
half-open interval contains `time_hours × quantity` (discount 0% when none
matches), computes the discount as total machine cost across quantity ×
`discount_percent`/100 — applied only to the machine portion, never to
material cost — and returns as final price the *currency rounding* of
`(material cost × q) + (machine cost × q − discount)`. -/
theorem pricing_discount_and_price_formula (raw : QuoteResult) (quantity : ℚ)
    (qd : QuoteData) (tiers : List PricingTier) (language : Language) :
    ((finalPriceCalc (some raw) quantity (some qd) tiers language).1.discountAmount
        = qd.machine_time_cost * quantity *
            (discountPercentOf tiers (raw.time_hours * quantity) / 100))
    ∧ ((finalPriceCalc (some raw) quantity (some qd) tiers language).1.finalPrice
        = roundPrice language (qd.material_cost * quantity +
            (qd.machine_time_cost * quantity -
              qd.machine_time_cost * quantity *
                (discountPercentOf tiers (raw.time_hours * quantity) / 100))))
    ∧ ((finalPriceCalc (some raw) quantity (some qd) tiers language).1.totalMaterialCost
        = qd.material_cost * quantity)
    ∧ ((finalPriceCalc (some raw) quantity (some qd) tiers language).1.totalMachineCost
        = qd.machine_time_cost * quantity)
    ∧ (∀ t, applicableTier tiers (raw.time_hours * quantity) = some t →
        tierMatches (raw.time_hours * quantity) t = true ∧ t ∈ tiers ∧
          ∀ u ∈ tiers, tierMatches (raw.time_hours * quantity) u = true →
            t.from_hours ≤ u.from_hours)
    ∧ (applicableTier tiers (raw.time_hours * quantity) = none →
        (∀ u ∈ tiers, tierMatches (raw.time_hours * quantity) u = false)
        ∧ discountPercentOf tiers (raw.time_hours * quantity) = 0) := by
  refine ⟨?_, ?_, ?_, ?_, ?_, ?_⟩
  · by_cases hq : quantity = 0
    · simp [finalPriceCalc, hq]
    · simp [finalPriceCalc, hq, discountPercentOf, discountOfFind, sortTiers]
  · by_cases hq : quantity = 0
    · simp [finalPriceCalc, hq, roundPrice_zero]
    · simp [finalPriceCalc, hq, discountPercentOf, discountOfFind, sortTiers]
  · by_cases hq : quantity = 0
    · simp [finalPriceCalc, hq]
    · simp [finalPriceCalc, hq]
  · by_cases hq : quantity = 0
    · simp [finalPriceCalc, hq]
    · simp [finalPriceCalc, hq]
  · intro t hfind
    obtain ⟨hm, hmem, hmin⟩ := find_first_min_from (raw.time_hours * quantity)
      (sortTiers tiers) (List.sorted_insertionSort tierLE tiers) t hfind
    refine ⟨hm, (List.mem_insertionSort tierLE).mp hmem, ?_⟩
    intro u hu hmu
    exact hmin u ((List.mem_insertionSort tierLE).mpr hu) hmu
  · intro hnone
    have hall := List.find?_eq_none.mp hnone
    constructor
    · intro u hu
      have := hall u ((List.mem_insertionSort tierLE).mpr hu)
      simpa using this
    · have hnone' : (sortTiers tiers).find?
          (tierMatches (raw.time_hours * quantity)) = none := hnone
      simp only [discountPercentOf, discountOfFind, hnone']

/-- Witness for C3: the spec's discount scenario — tiers
`[{0,500,0%},{500,1500,10%}]`, `time_hours = 600`, quantity 1, machine cost
6000: the 10% discount (600) is computed on machine cost only. -/
theorem pricing_discount_scenario :
    (finalPriceCalc (some ⟨600, 500, 1⟩) 1 (some ⟨100, 6000⟩)
        [⟨0, some 500, 0⟩, ⟨500, some 1500, 10⟩] Language.en).1.discountAmount
      = 6000 * 1 * (10 / 100) := by
  have h := (pricing_discount_and_price_formula ⟨600, 500, 1⟩ 1 ⟨100, 6000⟩
    [⟨0, some 500, 0⟩, ⟨500, some 1500, 10⟩] Language.en).1
  rw [h]
  have hdp : discountPercentOf [⟨0, some 500, 0⟩, ⟨500, some 1500, 10⟩]
      (600 : ℚ) = 10 := by decide
  simp only [mul_one]
  rw [hdp]

/-- C8 counterexample: a well-formed, non-overlapping tier table that covers
all nonnegative hours — `[{0,500,20%},{500,∞,10%}]` — yields a *decreasing*
discount: 20% at 100 hours but 10% at 600 hours, so the selected
`discount_percent` is not a non-decreasing function of machine-hours for every
well-formed non-overlapping table. -/
theorem tier_discount_not_monotone :
    discountPercentOf [⟨0, some 500, 20⟩, ⟨500, none, 10⟩] 100 = 20
    ∧ discountPercentOf [⟨0, some 500, 20⟩, ⟨500, none, 10⟩] 600 = 10
    ∧ (100 : ℚ) ≤ 600
    ∧ ¬((20 : ℚ) ≤ 10) := by
  refine ⟨by decide, by decide, by norm_num, by norm_num⟩

/-- C8 (amended): for a well-formed tier table — each bounded tier starts
before it ends, tiers are pairwise non-overlapping in ascending order, and
every nonnegative hour value is matched by some tier — *whose discount
percentages are non-decreasing along the table*, the selected
`discount_percent` is a non-decreasing function of total machine-hours. -/
theorem tier_discount_monotone (tiers : List PricingTier) (h1 h2 : ℚ)
    (h0 : 0 ≤ h1) (hle : h1 ≤ h2)
    (hft : ∀ t ∈ tiers, ∀ upper, t.to_hours = some upper → t.from_hours < upper)
    (hno : List.Pairwise tierUpperLE tiers)
    (hdisc : List.Pairwise
      (fun a b => a.discount_percent ≤ b.discount_percent) tiers)
    (hcov : ∀ x : ℚ, 0 ≤ x → ∃ u ∈ tiers, tierMatches x u = true) :
    discountPercentOf tiers h1 ≤ discountPercentOf tiers h2 := by
  have hsorted : List.Sorted tierLE tiers := by
    refine hno.imp_of_mem fun {a b} ha hb hab => ?_
    rcases hta : a.to_hours with _ | upper
    · simp only [tierUpperLE, hta] at hab
    · simp only [tierUpperLE, hta] at hab
      exact le_of_lt (lt_of_lt_of_le (hft a ha upper hta) hab)
  have hid : sortTiers tiers = tiers := hsorted.insertionSort_eq
  simp only [discountPercentOf, hid]
  exact discountOfFind_mono h1 h2 hle tiers hno hdisc (hcov h1 h0)
    (hcov h2 (le_trans h0 hle))

/-- Witness for C8: the repository's default tier table
`[{0,500,0%},{500,1500,10%},{1500,2500,20%},{2500,∞,30%}]` at 100 vs 600
hours. -/
theorem tier_discount_monotone_witness :
    discountPercentOf [⟨0, some 500, 0⟩, ⟨500, some 1500, 10⟩,
        ⟨1500, some 2500, 20⟩, ⟨2500, none, 30⟩] 100
      ≤ discountPercentOf [⟨0, some 500, 0⟩, ⟨500, some 1500, 10⟩,
          ⟨1500, some 2500, 20⟩, ⟨2500, none, 30⟩] 600 := by
  refine tier_discount_monotone _ 100 600 (by norm_num) (by norm_num)
    ?_ (by decide) (by decide) ?_
  · intro t ht upper hupper
    fin_cases ht <;> simp_all <;> linarith
  · intro x hx
    rcases lt_or_le x 500 with h5 | h5
    · refine ⟨⟨0, some 500, 0⟩, by simp, ?_⟩
      simp only [tierMatches]
      simp [hx, h5]
    · rcases lt_or_le x 1500 with h15 | h15
      · refine ⟨⟨500, some 1500, 10⟩, by simp, ?_⟩
        simp only [tierMatches]
        simp [h5, h15]
      · rcases lt_or_le x 2500 with h25 | h25
        · refine ⟨⟨1500, some 2500, 20⟩, by simp, ?_⟩
          simp only [tierMatches]
          simp [h15, h25]
        · refine ⟨⟨2500, none, 30⟩, by simp, ?_⟩
          simp only [tierMatches]
          simp [h25]

/-- C9 (code bug): the pricing memo calls `Array.prototype.sort` directly on
`settings.pricingTiers` (line 753), which sorts the caller's array **in
place**; with an unsorted tier table the array observable after the
computation is reordered, contradicting the spec's promise that every core
computation is a pure function that leaves its inputs unchanged. -/
theorem pricing_reorders_tier_table :
    (finalPriceCalc (some ⟨1, 1, 1⟩) 1 (some ⟨1, 1⟩)
        [⟨500, some 1500, 10⟩, ⟨0, some 500, 0⟩] Language.en).2
      = [⟨0, some 500, 0⟩, ⟨500, some 1500, 10⟩]
    ∧ [(⟨500, some 1500, 10⟩ : PricingTier), ⟨0, some 500, 0⟩]
      ≠ [⟨0, some 500, 0⟩, ⟨500, some 1500, 10⟩] := by
  refine ⟨by decide, by decide⟩

end AM2
